import Mathlib

/-!
Verification of the request authenticator in `server/auth/authenticator.go`
(repository HKoon/memos).

The authenticator orchestrates four credential paths: stateless access
tokens, store-backed refresh tokens, hashed personal access tokens (PAT),
and a delegated remote-identity ("Linkin") path that can provision shadow
users. The store, the token codec, the PAT hash, and the remote HTTP call
are external collaborators; they are modelled as an explicit environment
of abstract operations, and every store interaction is recorded in a
trace so that claims about the absence of store calls are statable.
-/

/-- Row status of a user record (`store.Normal`, `store.Archived`). -/
inductive RowStatus where
  | normal
  | archived
deriving DecidableEq, Repr

/-- User role (`store.RoleHost`, `store.RoleAdmin`, `store.RoleUser`). -/
inductive Role where
  | host
  | admin
  | user
deriving DecidableEq, Repr

/-- A local user record (`store.User`), with the fields the authenticator
reads or writes. -/
structure StoreUser where
  id : Int
  username : String
  nickname : String
  role : Role
  email : String
  passwordHash : String
  rowStatus : RowStatus
deriving DecidableEq, Repr

/-- Claims extracted from a verified access token
(`auth.UserClaims`): user id, username, role, status. -/
structure UserClaims where
  userID : Int
  username : String
  role : String
  status : String
deriving DecidableEq, Repr

/-- Parsed payload of an access token: subject (user id as a string),
username, role, status. Modelled from the spec: the token codec
(`ParseAccessTokenV2`) is outside the included sources; the spec gives the
claim shape (subject, username, role, status). -/
structure AccessTokenClaims where
  subject : String
  username : String
  role : String
  status : String
deriving DecidableEq, Repr

/-- Parsed payload of a refresh token: subject and token identifier.
Modelled from the spec: the token codec (`ParseRefreshToken`) is outside
the included sources; the spec gives the claim shape (subject, token
identifier). -/
structure RefreshTokenClaims where
  subject : String
  tokenID : String
deriving DecidableEq, Repr

/-- Failure kinds of the token codec, per the spec's TokenCodec contract:
`InvalidSignature`, `Expired`, `Malformed`. -/
inductive CodecErr where
  | invalidSignature
  | expired
  | malformed
deriving DecidableEq, Repr

/-- Failure kinds of a store lookup: the record is absent, or the lookup
itself failed. -/
inductive StoreErr where
  | notFound
  | internal
deriving DecidableEq, Repr

/-- A refresh-token store row; the authenticator only reads its optional
expiry. -/
structure RefreshTokenRecord where
  expiresAt : Option Int
deriving DecidableEq, Repr

/-- A stored personal access token
(`storepb.PersonalAccessTokensUserSetting_PersonalAccessToken`): the
fields the authenticator reads. -/
structure PersonalAccessToken where
  tokenId : String
  expiresAt : Option Int
deriving DecidableEq, Repr

/-- Result of `store.GetUserByPATHash`: the owning user and the matched
PAT record. -/
structure PATResult where
  user : StoreUser
  pat : PersonalAccessToken
deriving DecidableEq, Repr

/-- Identity returned by the remote Linkin endpoint: a (uid, username)
pair decoded from the JSON body. -/
structure LinkinUser where
  uid : String
  username : String
deriving DecidableEq, Repr

/-- A store operation performed by the authenticator, recorded in a
trace. -/
inductive StoreOp where
  | getRefreshToken (userID : Int) (tokenID : String)
  | getUserByID (id : Int)
  | getUserByUsername (username : String)
  | getUserByPATHash (hash : String)
  | createUser (u : StoreUser)
  | updatePATLastUsed (userID : Int) (tokenID : String)
deriving DecidableEq, Repr

/-- The authenticator's environment: the token codec closed over the
server secret, the PAT hash, the abstract store operations, the remote
identity endpoint, and the current wall-clock time. The store and codec
are external collaborators of the authenticator; each field models one
of the operations `authenticator.go` invokes on them. -/
structure Env where
  parseAccessTokenV2 : String → Except CodecErr AccessTokenClaims
  parseRefreshToken : String → Except CodecErr RefreshTokenClaims
  hashPAT : String → String
  getUserRefreshTokenByID : Int → String → Except Unit (Option RefreshTokenRecord)
  getUserByID : Int → Except Unit (Option StoreUser)
  getUserByUsername : String → Except Unit (Option StoreUser)
  getUserByPATHash : String → Except StoreErr PATResult
  createUser : StoreUser → Except Unit StoreUser
  updatePATLastUsed : Int → String → Except Unit Unit
  linkin : String → Except Unit LinkinUser
  now : Int

/-- Checks whether the first character list is a prefix of the second. -/
def charListHasPref : List Char → List Char → Bool
  | [], _ => true
  | _ :: _, [] => false
  | p :: ps, c :: cs => p = c && charListHasPref ps cs

/-- `strings.HasPrefix pre s` on the character lists of the strings. -/
def strHasPref (pre s : String) : Bool := charListHasPref pre.data s.data

/-- The numeric value of a decimal digit character, `none` for other
characters. -/
def digitVal? (c : Char) : Option Nat :=
  if '0' ≤ c ∧ c ≤ '9' then some (c.toNat - '0'.toNat) else none

/-- Parses a non-empty all-digit character list as a natural number. -/
def digitsToNat? : List Char → Option Nat
  | [] => none
  | cs => cs.foldl (fun acc c => match acc, digitVal? c with
      | some a, some d => some (a * 10 + d)
      | _, _ => none) (some 0)

/-- `strconv.ParseInt` in base 10: an optional sign followed by at least
one decimal digit. -/
def strToInt? (s : String) : Option Int :=
  match s.data with
  | '-' :: rest => (digitsToNat? rest).map (fun n => -(n : Int))
  | '+' :: rest => (digitsToNat? rest).map (fun n => (n : Int))
  | cs => (digitsToNat? cs).map (fun n => (n : Int))

/-- `util.ConvertStringToInt32`. Modelled from the spec: the helper is
outside the included sources; the spec says converting the embedded
subject to a numeric user id is a validated step, and the name fixes the
32-bit range. -/
def convertStringToInt32 (s : String) : Option Int :=
  match strToInt? s with
  | some n => if -2147483648 ≤ n ∧ n ≤ 2147483647 then some n else none
  | none => none

/-- The recognizable prefix of personal access tokens
(`auth.PersonalAccessTokenPrefix`). Modelled from the spec: the constant
is outside the included sources; the spec's concrete PAT strings start
with this. -/
def patTokenPrefixStr : String := "pat_"

/-- `time.Time.Before(now)` on an optional expiry, as used at
authenticator.go:84 and authenticator.go:116: a `nil` expiry never
counts as expired; a set expiry is expired exactly when it is strictly
before the current time. -/
def isExpiredAt (now : Int) (expiresAt : Option Int) : Bool :=
  match expiresAt with
  | none => false
  | some e => decide (e < now)

/-- `ExtractBearerToken`. Modelled from the spec: the helper is outside
the included sources; the spec says it parses the standard
`Bearer <token>` scheme and that absence or a malformed scheme yields the
empty token. -/
def extractBearerToken (authHeader : String) : String :=
  if strHasPref "Bearer " authHeader then ⟨authHeader.data.drop 7⟩ else ""

/-- Failure kinds of `AuthenticateByAccessTokenV2`: a codec failure
("invalid access token") or a non-numeric subject ("invalid user ID in
token"). -/
inductive AccessAuthErr where
  | invalidToken (e : CodecErr)
  | invalidUserID
deriving DecidableEq, Repr

/-- Failure kinds of `AuthenticateByRefreshToken`, one per `return`
with a non-nil error in authenticator.go:63-101. -/
inductive RefreshAuthErr where
  | invalidToken (e : CodecErr)
  | invalidUserID
  | storeError
  | revoked
  | expired
  | getUserError
  | userNotFound
  | userArchived
deriving DecidableEq, Repr

/-- Failure kinds of `AuthenticateByPAT`, one per `return` with a
non-nil error in authenticator.go:104-126; `invalidPAT` wraps the store
lookup failure. -/
inductive PATAuthErr where
  | invalidFormat
  | invalidPAT (e : StoreErr)
  | expired
  | userArchived
deriving DecidableEq, Repr

/-- `Authenticator.AuthenticateByAccessTokenV2` (authenticator.go:43-60):
parse the access token, convert the subject to a numeric user id, and
return claims without any store query. -/
def authenticateByAccessTokenV2 (env : Env) (accessToken : String) :
    Except AccessAuthErr UserClaims :=
  match env.parseAccessTokenV2 accessToken with
  | .error e => .error (.invalidToken e)
  | .ok claims =>
    match convertStringToInt32 claims.subject with
    | none => .error .invalidUserID
    | some userID =>
      .ok { userID := userID
            username := claims.username
            role := claims.role
            status := claims.status }

/-- `Authenticator.AuthenticateByRefreshToken` (authenticator.go:63-101):
parse, convert the subject, check the store row (revocation), check
expiry, load the user, and reject archived users. The second component
is the trace of store operations performed. -/
def authenticateByRefreshToken (env : Env) (refreshToken : String) :
    Except RefreshAuthErr (StoreUser × String) × List StoreOp :=
  match env.parseRefreshToken refreshToken with
  | .error e => (.error (.invalidToken e), [])
  | .ok claims =>
    match convertStringToInt32 claims.subject with
    | none => (.error .invalidUserID, [])
    | some userID =>
      let tr0 : List StoreOp := [.getRefreshToken userID claims.tokenID]
      match env.getUserRefreshTokenByID userID claims.tokenID with
      | .error _ => (.error .storeError, tr0)
      | .ok none => (.error .revoked, tr0)
      | .ok (some token) =>
        if isExpiredAt env.now token.expiresAt then
          (.error .expired, tr0)
        else
          let tr1 : List StoreOp := tr0 ++ [.getUserByID userID]
          match env.getUserByID userID with
          | .error _ => (.error .getUserError, tr1)
          | .ok none => (.error .userNotFound, tr1)
          | .ok (some user) =>
            if user.rowStatus = .archived then
              (.error .userArchived, tr1)
            else
              (.ok (user, claims.tokenID), tr1)

/-- `Authenticator.AuthenticateByPAT` (authenticator.go:104-126): require
the PAT token format, hash the token, look the hash up in the store, then
check expiry and the owning user's status. The second component is the
trace of store operations performed. -/
def authenticateByPAT (env : Env) (token : String) :
    Except PATAuthErr (StoreUser × PersonalAccessToken) × List StoreOp :=
  if ¬ strHasPref patTokenPrefixStr token then
    (.error .invalidFormat, [])
  else
    let tokenHash := env.hashPAT token
    let tr : List StoreOp := [.getUserByPATHash tokenHash]
    match env.getUserByPATHash tokenHash with
    | .error e => (.error (.invalidPAT e), tr)
    | .ok result =>
      if isExpiredAt env.now result.pat.expiresAt then
        (.error .expired, tr)
      else if result.user.rowStatus = .archived then
        (.error .userArchived, tr)
      else
        (.ok (result.user, result.pat), tr)

/-- `Authenticator.AuthenticateByLinkinToken` (authenticator.go:181-244):
reject an empty header, call the remote identity endpoint, reject an
empty remote username, look the username up locally, and either return
the existing user or provision a shadow user with empty password hash and
default role. The second component is the trace of store operations
performed. -/
def authenticateByLinkinToken (env : Env) (authHeader : String) :
    Except Unit StoreUser × List StoreOp :=
  if authHeader = "" then
    (.error (), [])
  else
    match env.linkin authHeader with
    | .error _ => (.error (), [])
    | .ok linkinUser =>
      if linkinUser.username = "" then
        (.error (), [])
      else
        let tr0 : List StoreOp := [.getUserByUsername linkinUser.username]
        match env.getUserByUsername linkinUser.username with
        | .error _ => (.error (), tr0)
        | .ok (some user) => (.ok user, tr0)
        | .ok none =>
          let newUser : StoreUser :=
            { id := 0
              username := linkinUser.username
              nickname := linkinUser.username
              role := .user
              email := ""
              passwordHash := ""
              rowStatus := .normal }
          match env.createUser newUser with
          | .error _ => (.error (), tr0 ++ [.createUser newUser])
          | .ok createdUser => (.ok createdUser, tr0 ++ [.createUser newUser])

/-- `auth.AuthResult` (authenticator.go:128-133): at most one of a loaded
user (PAT and remote paths) or stateless claims (access-token path), plus
the raw bearer token. -/
structure AuthResult where
  user : Option StoreUser
  claims : Option UserClaims
  accessToken : String
deriving DecidableEq, Repr

/-- The access-token attempt inside `Authenticate`
(authenticator.go:142-150): on success the result carries the claims and
the token, with no user loaded. -/
def accessBranch (env : Env) (token : String) : Option AuthResult :=
  match authenticateByAccessTokenV2 env token with
  | .ok claims => some { user := none, claims := some claims, accessToken := token }
  | .error _ => none

/-- The PAT attempt inside `Authenticate` (authenticator.go:153-164): on
success, dispatch the fire-and-forget last-used update (its outcome is
discarded) and return the loaded user. -/
def patBranch (env : Env) (token : String) : Option AuthResult × List StoreOp :=
  match authenticateByPAT env token with
  | (.ok (user, pat), tr) =>
    let _ := env.updatePATLastUsed user.id pat.tokenId
    (some { user := some user, claims := none, accessToken := token },
     tr ++ [.updatePATLastUsed user.id pat.tokenId])
  | (.error _, tr) => (none, tr)

/-- The remote-identity attempt inside `Authenticate`
(authenticator.go:167-175): on success the result carries the loaded
user and the token, with no stateless claims. -/
def linkinBranch (env : Env) (authHeader token : String) :
    Option AuthResult × List StoreOp :=
  match authenticateByLinkinToken env authHeader with
  | (.ok user, tr) =>
    (some { user := some user, claims := none, accessToken := token }, tr)
  | (.error _, tr) => (none, tr)

/-- `Authenticator.Authenticate` (authenticator.go:138-178): extract the
bearer token; for a non-empty non-PAT token try the access-token path and
fall through to the remote path; for a non-empty PAT-format token try the
PAT path; otherwise return unauthenticated (`none`). The second component
is the trace of store operations performed. -/
def authenticate (env : Env) (authHeader : String) :
    Option AuthResult × List StoreOp :=
  let token := extractBearerToken authHeader
  if token ≠ "" ∧ ¬ strHasPref patTokenPrefixStr token then
    match accessBranch env token with
    | some r => (some r, [])
    | none => linkinBranch env authHeader token
  else if token ≠ "" ∧ strHasPref patTokenPrefixStr token then
    patBranch env token
  else
    (none, [])

/-! ### Concrete environments for evaluation -/

/-- A normal (non-archived) user used in concrete evaluations. -/
def aliceUser : StoreUser :=
  { id := 42, username := "alice", nickname := "Alice", role := .user
    email := "", passwordHash := "ph", rowStatus := .normal }

/-- A stored PAT with no expiry, owned by `aliceUser`. -/
def alicePat : PersonalAccessToken := { tokenId := "t1", expiresAt := none }

/-- The shadow-user record the authenticator submits to `createUser` for
the remote username `newperson`. -/
def newpersonReq : StoreUser :=
  { id := 0, username := "newperson", nickname := "newperson", role := .user
    email := "", passwordHash := "", rowStatus := .normal }

/-- The user the store returns from creating `newpersonReq`. -/
def newpersonUser : StoreUser := { newpersonReq with id := 7 }

/-- A concrete environment: one valid access token (`acc42`), one access
token with a non-numeric subject (`accbad`), one live refresh token
(`ref42`) and one whose row is gone (`refgone`), one stored PAT hash, and
a remote endpoint that knows two headers. -/
def envW : Env :=
  { parseAccessTokenV2 := fun t =>
      if t = "acc42" then
        .ok { subject := "42", username := "alice", role := "ROLE_USER", status := "NORMAL" }
      else if t = "accbad" then
        .ok { subject := "zz", username := "bob", role := "ROLE_USER", status := "NORMAL" }
      else .error .malformed
    parseRefreshToken := fun t =>
      if t = "ref42" then .ok { subject := "42", tokenID := "r1" }
      else if t = "refgone" then .ok { subject := "43", tokenID := "r2" }
      else .error .malformed
    hashPAT := fun s => "h:" ++ s
    getUserRefreshTokenByID := fun uid tid =>
      if uid = 42 ∧ tid = "r1" then .ok (some { expiresAt := none }) else .ok none
    getUserByID := fun uid => if uid = 42 then .ok (some aliceUser) else .ok none
    getUserByUsername := fun u => if u = "alice" then .ok (some aliceUser) else .ok none
    getUserByPATHash := fun h =>
      if h = "h:pat_abc123" then .ok { user := aliceUser, pat := alicePat }
      else .error .notFound
    createUser := fun u => .ok { u with id := 7 }
    updatePATLastUsed := fun _ _ => .ok ()
    linkin := fun h =>
      if h = "Bearer lk1" then .ok { uid := "x", username := "newperson" }
      else if h = "Bearer lkempty" then .ok { uid := "x", username := "" }
      else .error ()
    now := 1000 }

/-- An archived user used to probe the row-status checks. -/
def archivedUser : StoreUser :=
  { id := 8, username := "carol", nickname := "Carol", role := .user
    email := "", passwordHash := "", rowStatus := .archived }

/-- An environment whose remote endpoint resolves the header
`Bearer lkc` to the archived user `carol`. -/
def envArchived : Env :=
  { envW with
    getUserByUsername := fun u =>
      if u = "carol" then .ok (some archivedUser) else .ok none
    linkin := fun h =>
      if h = "Bearer lkc" then .ok { uid := "c", username := "carol" }
      else .error () }

/-! ### Claim theorems -/

/-- C2: a PAT-format token whose hash matches no stored PAT record makes
`AuthenticateByPAT` fail with the wrapped not-found error; the only store
operation performed is the hash lookup, so the expiry and status checks
on the absent result are never reached. -/
theorem pat_unknown_hash_fails_not_found (env : Env) (token : String)
    (hpre : strHasPref patTokenPrefixStr token = true)
    (hlook : env.getUserByPATHash (env.hashPAT token) = .error .notFound) :
    authenticateByPAT env token =
      (.error (.invalidPAT .notFound), [.getUserByPATHash (env.hashPAT token)]) := by
  simp [authenticateByPAT, hpre, hlook]

/-- C2 witness: in the concrete environment only `pat_abc123` is stored,
so the lookup for `pat_abc124` is not found and the PAT path fails. -/
theorem pat_unknown_hash_fails_not_found_witness :
    strHasPref patTokenPrefixStr "pat_abc124" = true ∧
    envW.getUserByPATHash (envW.hashPAT "pat_abc124") = .error .notFound ∧
    authenticateByPAT envW "pat_abc124" =
      (.error (.invalidPAT .notFound), [.getUserByPATHash (envW.hashPAT "pat_abc124")]) :=
  ⟨by decide, rfl,
   pat_unknown_hash_fails_not_found envW "pat_abc124" (by decide) rfl⟩

/-- C3: a refresh token that parses successfully (signature valid) and
carries a numeric subject, but whose store row keyed by (subject, token
identifier) is absent, is rejected with the `revoked` error kind — a
constructor distinct from `expired` and from the wrapped codec failures —
and never succeeds. -/
theorem refresh_missing_row_revoked (env : Env) (tok : String)
    (claims : RefreshTokenClaims) (uid : Int)
    (hparse : env.parseRefreshToken tok = .ok claims)
    (hconv : convertStringToInt32 claims.subject = some uid)
    (hrow : env.getUserRefreshTokenByID uid claims.tokenID = .ok none) :
    (authenticateByRefreshToken env tok).1 = .error .revoked := by
  simp [authenticateByRefreshToken, hparse, hconv, hrow]

/-- C3 witness: `refgone` parses to subject 43 and token id `r2`, whose
row is absent in the concrete environment, so the path returns
`revoked`. -/
theorem refresh_missing_row_revoked_witness :
    envW.parseRefreshToken "refgone" = .ok { subject := "43", tokenID := "r2" } ∧
    convertStringToInt32 "43" = some 43 ∧
    envW.getUserRefreshTokenByID 43 "r2" = .ok none ∧
    (authenticateByRefreshToken envW "refgone").1 = .error .revoked :=
  ⟨rfl, by decide, rfl,
   refresh_missing_row_revoked envW "refgone" { subject := "43", tokenID := "r2" } 43
     rfl (by decide) rfl⟩

/-- C8: a remote identity response with an empty username makes the
Linkin path fail with no store operation at all: no local user is looked
up or created and no principal is returned. -/
theorem linkin_empty_username_never_creates (env : Env) (h : String)
    (lu : LinkinUser)
    (hlk : env.linkin h = .ok lu) (hemp : lu.username = "") :
    authenticateByLinkinToken env h = (.error (), []) := by
  unfold authenticateByLinkinToken
  by_cases hh : h = ""
  · simp [hh]
  · simp [hh, hlk, hemp]

/-- C8 witness: the header `Bearer lkempty` resolves remotely to an
empty username, and the Linkin path fails with an empty trace. -/
theorem linkin_empty_username_never_creates_witness :
    envW.linkin "Bearer lkempty" = .ok { uid := "x", username := "" } ∧
    authenticateByLinkinToken envW "Bearer lkempty" = (.error (), []) :=
  ⟨rfl,
   linkin_empty_username_never_creates envW "Bearer lkempty"
     { uid := "x", username := "" } rfl rfl⟩

/-- C9: the combined `Authenticate` flow returns the same result and
trace no matter what the fire-and-forget PAT last-used update does: two
environments differing only in that operation are indistinguishable to
the caller. -/
theorem pat_last_used_update_never_changes_result (env : Env)
    (f g : Int → String → Except Unit Unit) (h : String) :
    authenticate { env with updatePATLastUsed := f } h =
    authenticate { env with updatePATLastUsed := g } h := rfl

/-- C4: a bearer token without the PAT format whose parse succeeds and
whose subject is numeric makes `Authenticate` return stateless claims
equal to the signed fields, with an empty store-operation trace. -/
theorem access_token_success_stateless (env : Env) (h : String)
    (c : AccessTokenClaims) (uid : Int)
    (hne : extractBearerToken h ≠ "")
    (hnp : strHasPref patTokenPrefixStr (extractBearerToken h) = false)
    (hparse : env.parseAccessTokenV2 (extractBearerToken h) = .ok c)
    (hconv : convertStringToInt32 c.subject = some uid) :
    authenticate env h =
      (some { user := none
              claims := some { userID := uid, username := c.username,
                               role := c.role, status := c.status }
              accessToken := extractBearerToken h }, []) := by
  simp [authenticate, accessBranch, authenticateByAccessTokenV2, hne, hnp, hparse, hconv]

/-- C4 witness: the header `Bearer acc42` carries a valid access token
for subject 42 and authenticates statelessly with no store call. -/
theorem access_token_success_stateless_witness :
    extractBearerToken "Bearer acc42" ≠ "" ∧
    strHasPref patTokenPrefixStr (extractBearerToken "Bearer acc42") = false ∧
    envW.parseAccessTokenV2 (extractBearerToken "Bearer acc42") =
      .ok { subject := "42", username := "alice", role := "ROLE_USER", status := "NORMAL" } ∧
    convertStringToInt32 "42" = some 42 ∧
    authenticate envW "Bearer acc42" =
      (some { user := none
              claims := some { userID := 42, username := "alice",
                               role := "ROLE_USER", status := "NORMAL" }
              accessToken := extractBearerToken "Bearer acc42" }, []) :=
  ⟨by decide, by decide, rfl, by decide,
   access_token_success_stateless envW "Bearer acc42"
     { subject := "42", username := "alice", role := "ROLE_USER", status := "NORMAL" } 42
     (by decide) (by decide) rfl (by decide)⟩

/-- C5: when the remote endpoint yields a non-empty username with no
existing local user of that name, the Linkin path performs exactly one
`createUser` store operation, on a record with that username, empty
password hash and default role, and returns the user the store created
as the authenticated principal. -/
theorem linkin_provisions_shadow_user (env : Env) (h : String)
    (lu : LinkinUser) (created : StoreUser)
    (hne : h ≠ "")
    (hlk : env.linkin h = .ok lu)
    (hnemp : lu.username ≠ "")
    (hmiss : env.getUserByUsername lu.username = .ok none)
    (hcre : env.createUser
        { id := 0, username := lu.username, nickname := lu.username, role := .user
          email := "", passwordHash := "", rowStatus := .normal } = .ok created) :
    authenticateByLinkinToken env h =
      (.ok created,
       [.getUserByUsername lu.username,
        .createUser
          { id := 0, username := lu.username, nickname := lu.username, role := .user
            email := "", passwordHash := "", rowStatus := .normal }]) := by
  simp [authenticateByLinkinToken, hne, hlk, hnemp, hmiss, hcre]

/-- C5 witness: `Bearer lk1` resolves to the unseen username
`newperson`; the path creates `newpersonReq` and returns the created
user `newpersonUser`. -/
theorem linkin_provisions_shadow_user_witness :
    ("Bearer lk1" : String) ≠ "" ∧
    envW.linkin "Bearer lk1" = .ok { uid := "x", username := "newperson" } ∧
    ("newperson" : String) ≠ "" ∧
    envW.getUserByUsername "newperson" = .ok none ∧
    envW.createUser newpersonReq = .ok newpersonUser ∧
    authenticateByLinkinToken envW "Bearer lk1" =
      (.ok newpersonUser, [.getUserByUsername "newperson", .createUser newpersonReq]) :=
  ⟨by decide, rfl, by decide, rfl, rfl,
   linkin_provisions_shadow_user envW "Bearer lk1"
     { uid := "x", username := "newperson" } newpersonUser
     (by decide) rfl (by decide) rfl rfl⟩

/-- C7: a non-PAT bearer token that parses but carries a non-numeric
subject makes the access-token path fail with `invalidUserID`, while the
combined `Authenticate` flow falls through to the remote Linkin attempt
rather than returning unauthenticated outright. -/
theorem nonnumeric_subject_falls_through_to_remote (env : Env) (h : String)
    (c : AccessTokenClaims)
    (hne : extractBearerToken h ≠ "")
    (hnp : strHasPref patTokenPrefixStr (extractBearerToken h) = false)
    (hparse : env.parseAccessTokenV2 (extractBearerToken h) = .ok c)
    (hconv : convertStringToInt32 c.subject = none) :
    authenticateByAccessTokenV2 env (extractBearerToken h) = .error .invalidUserID ∧
    authenticate env h = linkinBranch env h (extractBearerToken h) := by
  constructor
  · simp [authenticateByAccessTokenV2, hparse, hconv]
  · simp [authenticate, accessBranch, authenticateByAccessTokenV2, hne, hnp, hparse, hconv]

/-- C7 witness: the token `accbad` parses with subject `zz`, which is
not numeric; the access path fails and the flow continues with the
remote attempt for the original header. -/
theorem nonnumeric_subject_falls_through_to_remote_witness :
    extractBearerToken "Bearer accbad" ≠ "" ∧
    strHasPref patTokenPrefixStr (extractBearerToken "Bearer accbad") = false ∧
    envW.parseAccessTokenV2 (extractBearerToken "Bearer accbad") =
      .ok { subject := "zz", username := "bob", role := "ROLE_USER", status := "NORMAL" } ∧
    convertStringToInt32 "zz" = none ∧
    authenticateByAccessTokenV2 envW (extractBearerToken "Bearer accbad") =
      .error .invalidUserID ∧
    authenticate envW "Bearer accbad" =
      linkinBranch envW "Bearer accbad" (extractBearerToken "Bearer accbad") :=
  ⟨by decide, by decide, rfl, by decide,
   nonnumeric_subject_falls_through_to_remote envW "Bearer accbad"
     { subject := "zz", username := "bob", role := "ROLE_USER", status := "NORMAL" }
     (by decide) (by decide) rfl (by decide)⟩

/-- C10: PAT records and refresh-token rows with no expiry set pass the
expiry check at every verification time: with the lookups succeeding and
the expiries unset, neither path returns `expired`; the outcome is
decided entirely by the remaining checks (user status on the PAT path,
user lookup and status on the refresh path). -/
theorem nil_expiry_tokens_never_expire (env : Env) (ptok rtok : String)
    (res : PATResult) (claims : RefreshTokenClaims) (uid : Int)
    (row : RefreshTokenRecord)
    (hpre : strHasPref patTokenPrefixStr ptok = true)
    (hlook : env.getUserByPATHash (env.hashPAT ptok) = .ok res)
    (hpexp : res.pat.expiresAt = none)
    (hparse : env.parseRefreshToken rtok = .ok claims)
    (hconv : convertStringToInt32 claims.subject = some uid)
    (hrow : env.getUserRefreshTokenByID uid claims.tokenID = .ok (some row))
    (hrexp : row.expiresAt = none) :
    (authenticateByPAT env ptok).1 =
      (if res.user.rowStatus = .archived then .error .userArchived
       else .ok (res.user, res.pat)) ∧
    (authenticateByRefreshToken env rtok).1 =
      (match env.getUserByID uid with
       | .error _ => .error .getUserError
       | .ok none => .error .userNotFound
       | .ok (some user) =>
         if user.rowStatus = .archived then .error .userArchived
         else .ok (user, claims.tokenID)) := by
  constructor
  · simp [authenticateByPAT, hpre, hlook, hpexp, isExpiredAt]
    split <;> rfl
  · simp [authenticateByRefreshToken, hparse, hconv, hrow, hrexp, isExpiredAt]
    split <;> first | rfl | (split <;> rfl)

/-- C10 witness: the stored PAT `pat_abc123` and the refresh row for
(42, `r1`) both have no expiry, and both paths succeed for the normal
user regardless of the clock value in the environment. -/
theorem nil_expiry_tokens_never_expire_witness :
    strHasPref patTokenPrefixStr "pat_abc123" = true ∧
    envW.getUserByPATHash (envW.hashPAT "pat_abc123") =
      .ok { user := aliceUser, pat := alicePat } ∧
    alicePat.expiresAt = none ∧
    envW.parseRefreshToken "ref42" = .ok { subject := "42", tokenID := "r1" } ∧
    convertStringToInt32 "42" = some 42 ∧
    envW.getUserRefreshTokenByID 42 "r1" = .ok (some { expiresAt := none }) ∧
    (authenticateByPAT envW "pat_abc123").1 = .ok (aliceUser, alicePat) ∧
    (authenticateByRefreshToken envW "ref42").1 = .ok (aliceUser, "r1") :=
  ⟨by decide, rfl, by decide, rfl, by decide, rfl,
   (nil_expiry_tokens_never_expire envW "pat_abc123" "ref42"
      { user := aliceUser, pat := alicePat } { subject := "42", tokenID := "r1" } 42
      { expiresAt := none } (by decide) rfl rfl rfl (by decide) rfl rfl).1,
   (nil_expiry_tokens_never_expire envW "pat_abc123" "ref42"
      { user := aliceUser, pat := alicePat } { subject := "42", tokenID := "r1" } 42
      { expiresAt := none } (by decide) rfl rfl rfl (by decide) rfl rfl).2⟩

/-- C1 counterexample: `carol` has Archived row status, yet a successful
remote-identity resolution for her username returns her as a principal —
both from the Linkin path directly and from the combined `Authenticate`
flow — because neither `Authenticate` nor `AuthenticateByLinkinToken`
checks the row status of a user resolved remotely. -/
theorem archived_user_authenticates_via_remote_path :
    archivedUser.rowStatus = .archived ∧
    (authenticateByLinkinToken envArchived "Bearer lkc").1 = .ok archivedUser ∧
    (authenticate envArchived "Bearer lkc").1 =
      some { user := some archivedUser, claims := none, accessToken := "lkc" } := by
  refine ⟨rfl, rfl, ?_⟩
  rfl

/-- A successful refresh-token authentication only returns a user that
passed the row-status check at authenticator.go:96. -/
theorem refresh_ok_not_archived (env : Env) (t : String)
    (ur : StoreUser × String) (tr : List StoreOp)
    (h : authenticateByRefreshToken env t = (.ok ur, tr)) :
    ur.1.rowStatus ≠ .archived := by
  simp only [authenticateByRefreshToken] at h
  rcases hp : env.parseRefreshToken t with e | claims <;> simp [hp] at h
  rcases hc : convertStringToInt32 claims.subject with _ | uid <;> simp [hc] at h
  rcases hrw : env.getUserRefreshTokenByID uid claims.tokenID
    with e | (_ | row) <;> simp [hrw] at h
  by_cases hex : isExpiredAt env.now row.expiresAt = true <;> simp [hex] at h
  rcases hu : env.getUserByID uid with e | (_ | user) <;> simp [hu] at h
  by_cases har : user.rowStatus = RowStatus.archived <;> simp [har] at h
  obtain ⟨h1, -⟩ := h
  subst h1
  simpa using har

/-- A successful PAT authentication only returns a user that passed the
row-status check at authenticator.go:121. -/
theorem pat_ok_not_archived (env : Env) (t : String)
    (up : StoreUser × PersonalAccessToken) (tr : List StoreOp)
    (h : authenticateByPAT env t = (.ok up, tr)) :
    up.1.rowStatus ≠ .archived := by
  simp only [authenticateByPAT] at h
  by_cases hpre : strHasPref patTokenPrefixStr t = true <;> simp [hpre] at h
  rcases hlk : env.getUserByPATHash (env.hashPAT t) with e | res <;> simp [hlk] at h
  by_cases hex : isExpiredAt env.now res.pat.expiresAt = true <;> simp [hex] at h
  by_cases har : res.user.rowStatus = RowStatus.archived <;> simp [har] at h
  obtain ⟨h1, -⟩ := h
  subst h1
  simpa using har

/-- C1 (amended): the stateful paths do reject Archived users — any
principal returned by `AuthenticateByRefreshToken` or
`AuthenticateByPAT` has non-Archived row status. (The access-token path
checks no row status at all, and the remote path returns a resolved user
without a row-status check, so those two paths are exempt.) -/
theorem refresh_and_pat_reject_archived (env : Env) (rtok ptok : String)
    (ur : StoreUser × String) (up : StoreUser × PersonalAccessToken)
    (tr1 tr2 : List StoreOp)
    (hr : authenticateByRefreshToken env rtok = (.ok ur, tr1))
    (hp : authenticateByPAT env ptok = (.ok up, tr2)) :
    ur.1.rowStatus ≠ .archived ∧ up.1.rowStatus ≠ .archived :=
  ⟨refresh_ok_not_archived env rtok ur tr1 hr,
   pat_ok_not_archived env ptok up tr2 hp⟩

/-- C1 (amended) witness: the refresh token `ref42` and the PAT
`pat_abc123` both resolve to the non-archived user `aliceUser`. -/
theorem refresh_and_pat_reject_archived_witness :
    authenticateByRefreshToken envW "ref42" =
      (.ok (aliceUser, "r1"),
       [.getRefreshToken 42 "r1", .getUserByID 42]) ∧
    authenticateByPAT envW "pat_abc123" =
      (.ok (aliceUser, alicePat), [.getUserByPATHash "h:pat_abc123"]) ∧
    aliceUser.rowStatus ≠ .archived ∧ alicePat.tokenId = "t1" :=
  ⟨rfl, rfl,
   (refresh_and_pat_reject_archived envW "ref42" "pat_abc123"
      (aliceUser, "r1") (aliceUser, alicePat)
      [.getRefreshToken 42 "r1", .getUserByID 42]
      [.getUserByPATHash "h:pat_abc123"] rfl rfl).1,
   rfl⟩

/-- A successful access-token attempt inside `Authenticate` carries
claims and no loaded user. -/
theorem accessBranch_some (env : Env) (t : String) (r : AuthResult)
    (hr : accessBranch env t = some r) :
    r.claims.isSome = true ∧ r.user = none := by
  simp only [accessBranch] at hr
  rcases hx : authenticateByAccessTokenV2 env t with e | c <;> simp [hx] at hr
  subst hr
  exact ⟨rfl, rfl⟩

/-- A successful PAT attempt inside `Authenticate` carries a loaded user
and no claims. -/
theorem patBranch_some (env : Env) (t : String) (r : AuthResult)
    (tr : List StoreOp) (hr : patBranch env t = (some r, tr)) :
    r.user.isSome = true ∧ r.claims = none := by
  simp only [patBranch] at hr
  rcases hx : authenticateByPAT env t with ⟨res, tr0⟩
  rw [hx] at hr
  rcases res with e | ⟨u, p⟩ <;> simp at hr
  obtain ⟨h1, -⟩ := hr
  subst h1
  exact ⟨rfl, rfl⟩

/-- A successful remote attempt inside `Authenticate` carries a loaded
user and no claims. -/
theorem linkinBranch_some (env : Env) (h t : String) (r : AuthResult)
    (tr : List StoreOp) (hr : linkinBranch env h t = (some r, tr)) :
    r.user.isSome = true ∧ r.claims = none := by
  simp only [linkinBranch] at hr
  rcases hx : authenticateByLinkinToken env h with ⟨res, tr0⟩
  rw [hx] at hr
  rcases res with e | u <;> simp at hr
  obtain ⟨h1, -⟩ := hr
  subst h1
  exact ⟨rfl, rfl⟩

/-- C6: every successful result of `Authenticate` populates exactly one
of the stateless claims (access-token path) or the loaded user (PAT and
remote paths), never both and never neither. -/
theorem auth_result_exactly_one_principal_field (env : Env) (h : String)
    (r : AuthResult) (tr : List StoreOp)
    (hres : authenticate env h = (some r, tr)) :
    (r.claims.isSome = true ∧ r.user = none) ∨
    (r.user.isSome = true ∧ r.claims = none) := by
  simp only [authenticate] at hres
  by_cases c1 : extractBearerToken h ≠ "" ∧
      ¬ strHasPref patTokenPrefixStr (extractBearerToken h) = true
  · rw [if_pos c1] at hres
    rcases hacc : accessBranch env (extractBearerToken h) with _ | r0 <;>
      simp [hacc] at hres
    · exact Or.inr (linkinBranch_some env h (extractBearerToken h) r tr hres)
    · obtain ⟨h1, -⟩ := hres
      subst h1
      exact Or.inl (accessBranch_some env (extractBearerToken h) r0 hacc)
  · rw [if_neg c1] at hres
    by_cases c2 : extractBearerToken h ≠ "" ∧
        strHasPref patTokenPrefixStr (extractBearerToken h) = true
    · rw [if_pos c2] at hres
      exact Or.inr (patBranch_some env (extractBearerToken h) r tr hres)
    · rw [if_neg c2] at hres
      simp at hres

/-- C6 witness: the valid access token `acc42` yields a claims-only
result with no loaded user. -/
theorem auth_result_exactly_one_principal_field_witness :
    authenticate envW "Bearer acc42" =
      (some { user := none
              claims := some { userID := 42, username := "alice",
                               role := "ROLE_USER", status := "NORMAL" }
              accessToken := "acc42" }, []) ∧
    ((some { userID := 42, username := "alice", role := "ROLE_USER",
             status := "NORMAL" } : Option UserClaims).isSome = true ∧
      (none : Option StoreUser) = none ∨
     ((none : Option StoreUser).isSome = true ∧
       (some { userID := 42, username := "alice", role := "ROLE_USER",
               status := "NORMAL" } : Option UserClaims) = none)) :=
  ⟨rfl,
   auth_result_exactly_one_principal_field envW "Bearer acc42"
     { user := none
       claims := some { userID := 42, username := "alice",
                        role := "ROLE_USER", status := "NORMAL" }
       accessToken := "acc42" } [] rfl⟩
